import Mathlib

/-!
Shallow embedding of the Credential & Quota Synchronization Engine of the
AntigravityQuotaWatcherDesktop repository, for checking its natural-language
specification.  Each definition translates one source function; the theorems
at the end settle the spec claims against those definitions.

Time is passed explicitly (an `Int` of Unix milliseconds) wherever the source
calls `Date.now()`; JavaScript string truthiness (`null`/`""` falsy) is
modelled with `Option String` plus `(·.getD "") = ""` tests.
-/

namespace AGQW

/-! ## Credential store (`tokenStorage.ts`, src/unnamed/part_010)

`TokenStorage` keeps an encrypted record `accountId -> token`, an
insertion-ordered account roster, and an `activeAccountId` pointer.
Encryption is a reversible wrapper around the stored JSON and is dropped from
the model: `saveToken`/`getToken` round-trip through it unchanged. -/

/-- Model of `TokenData` (part_010 lines 15-21): one OAuth token pair. -/
structure TokenData where
  accessToken : String
  refreshToken : String
  /-- Unix timestamp in milliseconds. -/
  expiresAt : Int
  tokenType : String
  scope : String
deriving DecidableEq, Repr

/-- Model of `AccountData` (part_010 lines 26-31); the optional `name`/`picture`
fields play no role in any claim and are omitted. -/
structure AccountData where
  id : String
  email : String
deriving DecidableEq, Repr

/-- The persisted state of `TokenStorage` (part_010 lines 36-40):
token record, account roster, active-account pointer. -/
structure TokenStore where
  tokens : List (String × TokenData)
  accounts : List AccountData
  activeAccountId : Option String
deriving DecidableEq, Repr

/-- Overwrite-or-append on the token record: JavaScript
`tokens[accountId] = v` keeps an existing key in place and appends a new one. -/
def setAssoc (l : List (String × TokenData)) (k : String) (v : TokenData) :
    List (String × TokenData) :=
  if l.any (fun p => p.1 = k) then
    l.map (fun p => if p.1 = k then (k, v) else p)
  else
    l ++ [(k, v)]

/-- Model of `TokenStorage.getToken` (part_010 lines 103-115): decrypt and return the
stored token, `null` when absent. -/
def getToken (st : TokenStore) (accountId : String) : Option TokenData :=
  (st.tokens.find? (fun p => p.1 = accountId)).map (·.2)

/-- Model of `TokenStorage.saveToken` (part_010 lines 92-98). -/
def saveToken (st : TokenStore) (accountId : String) (token : TokenData) :
    TokenStore :=
  { st with tokens := setAssoc st.tokens accountId token }

/-- Model of `TokenStorage.deleteToken` (part_010 lines 120-125). -/
def deleteToken (st : TokenStore) (accountId : String) : TokenStore :=
  { st with tokens := st.tokens.filter (fun p => p.1 ≠ accountId) }

/-- Default look-ahead buffer (part_010 line 10): 5 minutes in ms. -/
def DEFAULT_TOKEN_EXPIRY_BUFFER_MS : Int := 5 * 60 * 1000

/-- Model of `TokenStorage.isTokenExpired` (part_010 lines 131-135):
an absent token counts as expired; otherwise
`Date.now() + bufferMs >= token.expiresAt`. -/
def isTokenExpired (st : TokenStore) (accountId : String) (bufferMs now : Int) :
    Bool :=
  match getToken st accountId with
  | none => true
  | some token => now + bufferMs ≥ token.expiresAt

/-- Model of `TokenStorage.updateAccessToken` (part_010 lines 140-147): mutate the
access token and expiry in place; throws (`none`) when no token is stored. -/
def updateAccessToken (st : TokenStore) (accountId accessToken : String)
    (expiresIn now : Int) : Option TokenStore :=
  match getToken st accountId with
  | none => none
  | some token =>
      some (saveToken st accountId
        { token with accessToken := accessToken,
                     expiresAt := now + expiresIn * 1000 })

/-- The replace-first-or-push loop (`accounts.findIndex`) of
`TokenStorage.saveAccount` (part_010 lines 154-164). -/
def saveAccountList : List AccountData → AccountData → List AccountData
  | [], a => [a]
  | b :: bs, a => if b.id = a.id then a :: bs else b :: saveAccountList bs a

/-- Model of `TokenStorage.saveAccount` (part_010 lines 154-164). -/
def saveAccount (st : TokenStore) (a : AccountData) : TokenStore :=
  { st with accounts := saveAccountList st.accounts a }

/-- Model of `TokenStorage.setActiveAccountId` (part_010 lines 193-195). -/
def setActiveAccountId (st : TokenStore) (accountId : Option String) :
    TokenStore :=
  { st with activeAccountId := accountId }

/-- Model of `TokenStorage.deleteAccount` (part_010 lines 176-188): filter the roster,
delete the token, and if the deleted account was active, switch to
`filtered[0]?.id` (the first remaining account, or clear when none remain). -/
def deleteAccount (st : TokenStore) (accountId : String) : TokenStore :=
  let filtered := st.accounts.filter (fun a => a.id ≠ accountId)
  let st1 := deleteToken { st with accounts := filtered } accountId
  if st1.activeAccountId = some accountId then
    setActiveAccountId st1 ((filtered.head?).map (·.id))
  else
    st1

/-! ## Callback listener (`callbackServer.ts`, src/unnamed/part_010 lines 212-447)

`waitForCallback(expectedState)` installs a request handler; for each HTTP
request it inspects the path and the `code`/`state`/`error` query parameters.
`URLSearchParams.get` yields `null` for an absent parameter and possibly `""`,
and the source tests `if (error)` / `if (!code)` (JS truthiness), so both are
modelled through `Option String` with `(·.getD "") = ""`. -/

/-- The query data of one HTTP request hitting the callback listener. -/
structure CallbackRequest where
  pathname : String
  code : Option String
  state : Option String
  error : Option String
deriving DecidableEq, Repr

/-- What the handler in `waitForCallback` does with one request.
`notFound` answers 404 and keeps waiting; every other constructor is a
terminal outcome of the login attempt (the server is stopped). -/
inductive CallbackOutcome where
  | notFound
  | oauthError (err : String)
  | missingCode
  | stateMismatch
  | success (code : String)
deriving DecidableEq, Repr

/-- Model of `CALLBACK_PATH` (constants.ts, src/unnamed/part_006 line 29). -/
def CALLBACK_PATH : String := "/callback"

/-- The request handler of `CallbackServer.waitForCallback`
(part_010 lines 263-307), checks in source order: wrong path → 404 (keep
waiting); truthy `error` → OAuth error; missing/empty `code` → missing-code
error; `state !== expectedState` → state-mismatch error; otherwise success. -/
def handleCallbackRequest (expectedState : String) (r : CallbackRequest) :
    CallbackOutcome :=
  if r.pathname ≠ CALLBACK_PATH then .notFound
  else if r.error.getD "" ≠ "" then .oauthError (r.error.getD "")
  else if r.code.getD "" = "" then .missingCode
  else if r.state ≠ some expectedState then .stateMismatch
  else .success (r.code.getD "")

/-! ## Authorization flow (`googleAuthService.ts`)

Only the slice the claims touch is modelled: the token exchange and the
persistence tail of `login()` (lines 209-244).  Network effects are inputs:
the token-endpoint response and the profile-endpoint result are data. -/

/-- Token-endpoint JSON (googleAuthService.ts lines 53-59); `refresh_token`
is optional in the response. -/
structure TokenResponse where
  access_token : String
  refresh_token : Option String
  expires_in : Int
  token_type : String
  scope : String
deriving DecidableEq, Repr

/-- Profile-endpoint JSON (googleAuthService.ts lines 61-67), restricted to
the fields `login` persists. -/
structure UserInfo where
  id : String
  email : String
deriving DecidableEq, Repr

/-- Model of `GoogleAuthService.exchangeCodeForToken` (googleAuthService.ts lines
492-519), from the already-parsed response on: `!response.refresh_token`
(absent or empty) throws `No refresh token in response`; otherwise a
`TokenData` with `expiresAt = Date.now() + expires_in * 1000` is built. -/
def exchangeCodeForToken (resp : TokenResponse) (now : Int) :
    Except String TokenData :=
  if resp.refresh_token.getD "" = "" then
    .error "No refresh token in response"
  else
    .ok { accessToken := resp.access_token,
          refreshToken := resp.refresh_token.getD "",
          expiresAt := now + resp.expires_in * 1000,
          tokenType := resp.token_type,
          scope := resp.scope }

/-- The tail of `GoogleAuthService.login` after the callback has delivered an
authorization code (googleAuthService.ts lines 216-244): exchange the code,
fetch the profile, then `saveAccount`, `saveToken`, `setActiveAccountId`.
Any thrown error lands in the surrounding `catch`, which performs no
storage writes; the returned `Bool` is `login`'s return value. -/
def loginCompleteFromCallback (st : TokenStore) (resp : TokenResponse)
    (userInfoResult : Except String UserInfo) (now : Int) :
    TokenStore × Bool :=
  match exchangeCodeForToken resp now with
  | .error _ => (st, false)
  | .ok tokenData =>
      match userInfoResult with
      | .error _ => (st, false)
      | .ok u =>
          let account : AccountData := { id := u.id, email := u.email }
          let st1 := saveAccount st account
          let st2 := saveToken st1 account.id tokenData
          let st3 := setActiveAccountId st2 (some account.id)
          (st3, true)

/-! ## Quota level (`shared/types.ts`, src/unnamed/part_005 lines 93-110)

Percentages and thresholds are JavaScript numbers; they are embedded as
rationals. -/

/-- Model of `QuotaLevel` (part_005 lines 93-98). -/
inductive QuotaLevel where
  | normal
  | warning
  | critical
  | depleted
deriving DecidableEq, Repr

/-- Model of `getQuotaLevel` (part_005 lines 101-110). -/
def getQuotaLevel (percentage warningThreshold criticalThreshold : ℚ) :
    QuotaLevel :=
  if percentage ≤ 0 then .depleted
  else if percentage < criticalThreshold then .critical
  else if percentage < warningThreshold then .warning
  else .normal

/-! ## Google Cloud Code API client (`googleApiClient`, src/unnamed/part_007)

The claims need `GoogleApiError.isRetryable`/`needsReauth`, the model
filtering of `fetchModelsQuota`, and the retry loop of `makeApiRequest`. -/

/-- Model of `GoogleApiError` (part_007 lines 51-70), carrying the HTTP status code;
the optional provider error code plays no role in any claim. -/
structure GoogleApiError where
  statusCode : Nat
deriving DecidableEq, Repr

/-- Model of `GoogleApiError.isRetryable` (part_007 lines 62-64):
`statusCode >= 500 || statusCode === 429`. -/
def GoogleApiError.isRetryable (e : GoogleApiError) : Bool :=
  500 ≤ e.statusCode || e.statusCode == 429

/-- Model of `GoogleApiError.needsReauth` (part_007 lines 67-69):
`statusCode === 401` — and only 401. -/
def GoogleApiError.needsReauth (e : GoogleApiError) : Bool :=
  e.statusCode == 401

/-! ### String machinery for the model filter

`/gemini|claude|gpt/i.test(name)` is case-insensitive substring search;
`lowerName.match(/gemini-(\d+(?:\.\d+)?)/)` finds, left to right, the first
position where `gemini-` is followed by at least one digit, captures the
maximal digit run, and optionally `.` plus a further non-empty digit run;
`parseFloat` of the capture is its value as a rational. -/

/-- Tests whether `pat` occurs as a contiguous subsequence of `l` (substring search). -/
def listContainsSeq (pat : List Char) : List Char → Bool
  | [] => pat.isPrefixOf ([] : List Char)
  | c :: cs => pat.isPrefixOf (c :: cs) || listContainsSeq pat cs

/-- Model of `toLowerCase` on a model name. -/
def lowerStr (s : String) : String :=
  String.mk (s.data.map Char.toLower)

/-- Case-insensitive substring test on strings (ASCII model names). -/
def containsCI (s pat : String) : Bool :=
  listContainsSeq (lowerStr pat).data (lowerStr s).data

/-- Numeric value of a digit run (most significant first). -/
def natOfDigits (ds : List Char) : Nat :=
  ds.foldl (fun n c => 10 * n + (c.toNat - 48)) 0

/-- Model of `parseFloat` of the regex capture `\d+(?:\.\d+)?` located at the head of
`cs`: `none` when `cs` does not start with a digit. -/
def parseVersionAt (cs : List Char) : Option ℚ :=
  let ds := cs.takeWhile Char.isDigit
  if ds.isEmpty then none
  else
    let rest := cs.dropWhile Char.isDigit
    match rest with
    | '.' :: rest2 =>
        let fs := rest2.takeWhile Char.isDigit
        if fs.isEmpty then some (natOfDigits ds)
        else some ((natOfDigits ds : ℚ) + (natOfDigits fs : ℚ) / 10 ^ fs.length)
    | _ => some (natOfDigits ds)

/-- First match of `/gemini-(\d+(?:\.\d+)?)/` scanning `cs` left to right:
the parsed capture, or `none` when no position matches. -/
def findGeminiVersion : List Char → Option ℚ
  | [] => none
  | c :: cs =>
      match
        (if ("gemini-".data).isPrefixOf (c :: cs) then
          parseVersionAt ((c :: cs).drop 7)
        else none) with
      | some v => some v
      | none => findGeminiVersion cs

/-- Model of `GoogleCloudCodeClient.isModelVersionSupported` (part_007 lines 213-222):
non-gemini names pass; gemini names pass only when the version regex matches
and `parseFloat(version) >= 3.0`; gemini names with no parsable version are
rejected. -/
def isModelVersionSupported (modelName : String) : Bool :=
  let lowerName := lowerStr modelName
  if ¬ listContainsSeq "gemini".data lowerName.data then true
  else
    match findGeminiVersion lowerName.data with
    | some v => decide ((3 : ℚ) ≤ v)
    | none => false

/-- The allow-list test `/gemini|claude|gpt/i.test(modelName)`
(part_007 line 166). -/
def allowedModelName (modelName : String) : Bool :=
  containsCI modelName "gemini" || containsCI modelName "claude" ||
    containsCI modelName "gpt"

/-- Model of `quotaInfo` of one model entry in the usage response
(part_007 lines 192-203): `remainingFraction` and `resetTime` may each be
absent. -/
structure QuotaInfo where
  remainingFraction : Option ℚ
  resetTime : Option String
deriving DecidableEq, Repr

/-- One entry of the provider's `models` map: name, and the `quotaInfo`
field when the provider supplies usage (`none` models a missing/falsy
`quotaInfo`). -/
structure ModelEntry where
  modelName : String
  quotaInfo : Option QuotaInfo
deriving DecidableEq, Repr

/-- Model of `ModelQuotaFromApi` (part_007 lines 33-39). -/
structure ModelQuotaFromApi where
  modelName : String
  remainingQuota : ℚ
  resetTime : Option String
  isExhausted : Bool
deriving DecidableEq, Repr

/-- Model of `GoogleCloudCodeClient.parseModelQuota` (part_007 lines 192-203); a
missing `remainingFraction` defaults to 0, and a missing `resetTime` (a
`Date.now()`-based default in the source) is kept as `none`; the display
name is presentation-only and omitted. -/
def parseModelQuota (modelName : String) (q : QuotaInfo) : ModelQuotaFromApi :=
  let remainingFraction := q.remainingFraction.getD 0
  { modelName := modelName,
    remainingQuota := remainingFraction,
    resetTime := q.resetTime,
    isExhausted := remainingFraction ≤ 0 }

/-- The filtering/mapping loop of `GoogleCloudCodeClient.fetchModelsQuota`
(part_007 lines 165-190): keep an entry iff its name passes the allow-list,
passes the gemini version floor, and the provider supplies `quotaInfo`;
skipped entries produce nothing. -/
def fetchModelsQuotaFilter : List ModelEntry → List ModelQuotaFromApi
  | [] => []
  | e :: es =>
      if allowedModelName e.modelName then
        if isModelVersionSupported e.modelName then
          match e.quotaInfo with
          | some q => parseModelQuota e.modelName q :: fetchModelsQuotaFilter es
          | none => fetchModelsQuotaFilter es
        else fetchModelsQuotaFilter es
      else fetchModelsQuotaFilter es

/-! ### HTTP client retry loop (`makeApiRequest`, part_007 lines 225-256)

`MAX_RETRIES = 3` and `RETRY_DELAY_MS = 1000` come from constants.ts
(src/unnamed/part_006 lines 36-37).  Each attempt's network outcome is an
input; errors are either a `GoogleApiError` (HTTP status) or a plain error
(network failure / timeout / parse failure). -/

/-- A failure of one quota-related operation: a `GoogleApiError` thrown on a
non-2xx HTTP status, or any other thrown `Error` (network, timeout, parse). -/
inductive FetchError where
  | apiError (e : GoogleApiError)
  | plainError (msg : String)
deriving DecidableEq, Repr

/-- Model of `error instanceof GoogleApiError && error.needsReauth()`. -/
def FetchError.needsReauthCheck : FetchError → Bool
  | .apiError e => e.needsReauth
  | .plainError _ => false

/-- Model of `error instanceof GoogleApiError && !error.isRetryable()`. -/
def FetchError.nonRetryableApiCheck : FetchError → Bool
  | .apiError e => !e.isRetryable
  | .plainError _ => false

/-- Model of `MAX_RETRIES` (part_006 line 36). -/
def CLIENT_MAX_RETRIES : Nat := 3

/-- Model of `RETRY_DELAY_MS` of constants.ts (part_006 line 37), used by
`makeApiRequest`. -/
def CLIENT_RETRY_DELAY_MS : Nat := 1000

/-- One attempt's outcome inside `makeApiRequest`: the parsed response `ρ`,
or a thrown error. -/
abbrev AttemptResult (ρ : Type) := Except FetchError ρ

/-- The loop body of `GoogleCloudCodeClient.makeApiRequest`
(part_007 lines 233-255), from attempt number `attempt` on, consuming the
per-attempt outcomes: once `attempt` reaches `MAX_RETRIES` the loop exits and
re-throws `lastError`; a success returns; a `GoogleApiError` that is
non-retryable or needs re-auth is re-thrown at once; otherwise, before the
next attempt (if one is left), the loop sleeps `RETRY_DELAY_MS * (attempt + 1)`
ms.  Returns the final result and the list of sleeps taken.  An empty
`outcomes` list at a live attempt is unreachable in the source (every attempt
yields something) and is mapped to the post-loop `lastError` throw. -/
def makeApiRequestLoop (ρ : Type) :
    Nat → Option FetchError → List (AttemptResult ρ) →
    AttemptResult ρ × List Nat
  | _, lastError, [] =>
      (.error (lastError.getD (.plainError "Request failed after retries")), [])
  | attempt, lastError, o :: rest =>
      if CLIENT_MAX_RETRIES ≤ attempt then
        (.error (lastError.getD (.plainError "Request failed after retries")), [])
      else
        match o with
        | .ok r => (.ok r, [])
        | .error e =>
            if e.nonRetryableApiCheck || e.needsReauthCheck then
              (.error e, [])
            else if attempt < CLIENT_MAX_RETRIES - 1 then
              let d := CLIENT_RETRY_DELAY_MS * (attempt + 1)
              let r := makeApiRequestLoop ρ (attempt + 1) (some e) rest
              (r.1, d :: r.2)
            else
              let r := makeApiRequestLoop ρ (attempt + 1) (some e) rest
              (r.1, r.2)

/-- Model of `GoogleCloudCodeClient.makeApiRequest` (part_007 lines 225-256). -/
def makeApiRequest (ρ : Type) (outcomes : List (AttemptResult ρ)) :
    AttemptResult ρ × List Nat :=
  makeApiRequestLoop ρ 0 none outcomes

/-! ## Quota poller (`quotaService.ts` lines 1-261)

State: `isPolling`, the interval timer, the retry counter, and the snapshot
cache.  The three subscription channels are modelled as an emitted event
list; timer sleeps (`delay(RETRY_DELAY_MS)`) are recorded in a delay list.
The outcomes of the fetches performed by the retry loop are an input list
(`future`): `handleFetchError` recursion consumes one entry per retry
attempt. -/

/-- A cached `QuotaSnapshot`, reduced to the mapped model list (quotaService.ts
lines 182-196); timestamp/email/tier play no role in any claim. -/
structure Snapshot where
  models : List ModelQuotaFromApi
deriving DecidableEq, Repr

/-- Mutable state of `QuotaService`. -/
structure QSState where
  isPolling : Bool
  hasTimer : Bool
  retryCount : Nat
  cache : List (String × Snapshot)
deriving DecidableEq, Repr

/-- Events emitted on the three subscription channels of `QuotaService`. -/
inductive QSEvent where
  | errorEvt (accountId : String) (e : FetchError)
  | updateEvt (accountId : String)
  | statusIdle
  | statusFetching
  | statusRetrying (retryCount : Nat)
deriving DecidableEq, Repr

/-- Result of a `QuotaService` step: new state, events emitted in order, and
the argument of each `delay(...)` call in order. -/
structure QSResult where
  state : QSState
  events : List QSEvent
  delays : List Nat
deriving DecidableEq, Repr

/-- Model of `MAX_RETRIES` (quotaService.ts line 19). -/
def QS_MAX_RETRIES : Nat := 3

/-- Model of `RETRY_DELAY_MS` (quotaService.ts line 20): 5 seconds. -/
def QS_RETRY_DELAY_MS : Nat := 5000

/-- Model of `QuotaService.stopPolling` (quotaService.ts lines 109-118): clear the
timer, `isPolling = false`, `retryCount = 0`, emit status `idle`. -/
def stopPolling (s : QSState) : QSState × List QSEvent :=
  ({ s with isPolling := false, hasTimer := false, retryCount := 0 },
   [.statusIdle])

/-- The outcome of one (re-)fetch of an account's quota: a snapshot, or a
thrown error. -/
inductive FetchOutcome where
  | ok (snap : Snapshot)
  | fail (e : FetchError)
deriving DecidableEq, Repr

/-- Overwrite-or-append on the snapshot cache (`Map.set`). -/
def cacheSet (l : List (String × Snapshot)) (k : String) (v : Snapshot) :
    List (String × Snapshot) :=
  if l.any (fun p => p.1 = k) then
    l.map (fun p => if p.1 = k then (k, v) else p)
  else
    l ++ [(k, v)]

/-- The three non-retrying branches of `QuotaService.handleFetchError`
(quotaService.ts lines 204-217 and 241-246), in source order: a
`GoogleApiError` needing re-auth stops polling and emits the error; a
non-retryable `GoogleApiError` emits the error; once `retryCount` has reached
`MAX_RETRIES`, reset it to 0 and emit the error.  `none` means the retry
branch (lines 219-240) applies instead. -/
def handleFetchErrorBase (accountId : String) (s : QSState) (e : FetchError) :
    Option QSResult :=
  if e.needsReauthCheck then
    let (s', evs) := stopPolling s
    some ⟨s', evs ++ [.errorEvt accountId e], []⟩
  else if e.nonRetryableApiCheck then
    some ⟨s, [.errorEvt accountId e], []⟩
  else if s.retryCount < QS_MAX_RETRIES then
    none
  else
    some ⟨{ s with retryCount := 0 }, [.errorEvt accountId e], []⟩

/-- Model of `QuotaService.handleFetchError` (quotaService.ts lines 201-247).
After the non-retrying branches (`handleFetchErrorBase`), the retry branch
increments the counter, emits status `retrying`, sleeps the constant
`RETRY_DELAY_MS`, and re-fetches — a successful re-fetch caches, emits
`update` and resets the counter, a failing one recurses with the new error.
`future` lists the outcomes of the successive re-fetches; an empty `future`
at a live retry models the source's account-no-longer-known case
(`accounts.find` misses after the sleep: no fetch, nothing further happens). -/
def handleFetchError (accountId : String) :
    QSState → FetchError → List FetchOutcome → QSResult
  | s, e, [] =>
      match handleFetchErrorBase accountId s e with
      | some r => r
      | none =>
          ⟨{ s with retryCount := s.retryCount + 1 },
           [.statusRetrying (s.retryCount + 1)], [QS_RETRY_DELAY_MS]⟩
  | s, e, o :: rest =>
      match handleFetchErrorBase accountId s e with
      | some r => r
      | none =>
          let s1 := { s with retryCount := s.retryCount + 1 }
          match o with
          | .ok snap =>
              ⟨{ s1 with retryCount := 0,
                         cache := cacheSet s1.cache accountId snap },
               [.statusRetrying s1.retryCount, .updateEvt accountId],
               [QS_RETRY_DELAY_MS]⟩
          | .fail e' =>
              let r := handleFetchError accountId s1 e' rest
              ⟨r.state, .statusRetrying s1.retryCount :: r.events,
               QS_RETRY_DELAY_MS :: r.delays⟩

/-! ## Secondary credential loader (`KiroAuthService`, kiroQuotaService.ts
lines 250-380)

`loadCredentials` reads a fixed file; the filesystem interaction is an input:
the file is absent, unreadable/unparsable (anything thrown lands in the
`catch`, which behaves like the explicit failure paths), or parses to a JSON
object whose fields may each be absent or empty (JS falsiness). -/

/-- The parsed content of `kiro-auth-token.json`; absent fields are `none`,
and `""` is falsy like absence. -/
structure KiroFileData where
  accessToken : Option String
  refreshToken : Option String
  profileArn : Option String
  expiresAt : Option Int
deriving DecidableEq, Repr

/-- What the loader finds at `KIRO_AUTH_TOKEN_PATH`. -/
inductive KiroFileState where
  | absent
  | unreadable
  | parsed (data : KiroFileData)
deriving DecidableEq, Repr

/-- Model of `KiroCredentials` (kiroQuotaService.ts lines 256-261). -/
structure KiroCredentials where
  accessToken : String
  refreshToken : String
  profileArn : String
  expiresAt : Option Int
deriving DecidableEq, Repr

/-- JS falsiness of an optional string field: absent or empty. -/
def falsyStr (s : Option String) : Bool :=
  s.getD "" = ""

/-- Model of `KiroAuthService.loadCredentials` (kiroQuotaService.ts lines 302-338):
absent file → `(none, false)`; read/parse failure → caught → `(none, false)`;
falsy `refreshToken` or `profileArn` → `(none, false)`; otherwise the
credentials are kept (`accessToken || ''`) and `true` returned.  The returned
pair is (new in-memory credentials, return value); the `try`/`catch` makes
the source total — no path throws. -/
def loadCredentials (fs : KiroFileState) : Option KiroCredentials × Bool :=
  match fs with
  | .absent => (none, false)
  | .unreadable => (none, false)
  | .parsed d =>
      if falsyStr d.refreshToken || falsyStr d.profileArn then (none, false)
      else
        (some { accessToken := d.accessToken.getD "",
                refreshToken := d.refreshToken.getD "",
                profileArn := d.profileArn.getD "",
                expiresAt := d.expiresAt }, true)

/-- Model of `KiroAuthService.isAuthenticated` (kiroQuotaService.ts lines 350-352):
`credentials !== null && !!credentials.refreshToken`. -/
def kiroIsAuthenticated (credentials : Option KiroCredentials) : Bool :=
  match credentials with
  | none => false
  | some c => c.refreshToken ≠ ""

/-! ## Helper lemmas on the store's association lists -/

/-- Overwriting an existing key in place: the lookup finds the new value. -/
theorem find_map_overwrite (l : List (String × TokenData)) (k : String)
    (v : TokenData) (hany : l.any (fun p => p.1 = k) = true) :
    (l.map (fun p => if p.1 = k then (k, v) else p)).find?
      (fun p => p.1 = k) = some (k, v) := by
  induction l with
  | nil => simp at hany
  | cons p rest ih =>
      by_cases hp : p.1 = k
      · simp [List.find?, hp]
      · have hrest : rest.any (fun p => p.1 = k) = true := by
          simp only [List.any_cons] at hany
          rcases Bool.or_eq_true_iff.mp hany with h | h
          · exact absurd (of_decide_eq_true h) hp
          · exact h
        simp [List.find?, hp, ih hrest]

/-- Appending a fresh key: the lookup skips the old entries and finds it. -/
theorem find_append_new (l : List (String × TokenData)) (k : String)
    (v : TokenData) (hany : ¬ l.any (fun p => p.1 = k) = true) :
    (l ++ [(k, v)]).find? (fun p => p.1 = k) = some (k, v) := by
  induction l with
  | nil => simp [List.find?]
  | cons p rest ih =>
      have hp : ¬ p.1 = k := by
        intro h
        exact hany (by simp [List.any_cons, h])
      have hrest : ¬ rest.any (fun p => p.1 = k) = true := by
        intro h
        exact hany (by simp [List.any_cons, h])
      simp only [List.cons_append, List.find?]
      simp [hp, ih hrest]

/-- Looking up the key just written by `setAssoc` yields the new value. -/
theorem find_setAssoc (l : List (String × TokenData)) (k : String)
    (v : TokenData) :
    (setAssoc l k v).find? (fun p => p.1 = k) = some (k, v) := by
  unfold setAssoc
  by_cases hany : l.any (fun p => p.1 = k) = true
  · simp only [hany, if_true]
    exact find_map_overwrite l k v hany
  · simp only [hany, if_false]
    exact find_append_new l k v hany

/-- Reading the token right after `saveToken` returns the saved token. -/
theorem getToken_saveToken (st : TokenStore) (k : String) (v : TokenData) :
    getToken (saveToken st k v) k = some v := by
  simp [getToken, saveToken, find_setAssoc]

/-- No lookup succeeds for a key filtered out of the token record. -/
theorem find_filter_ne (l : List (String × TokenData)) (k : String) :
    (l.filter (fun p => p.1 ≠ k)).find? (fun p => p.1 = k) = none := by
  rw [List.find?_eq_none]
  intro x hx
  have := (List.mem_filter.mp hx).2
  simpa using of_decide_eq_true this

/-! ## Claim C1 — callback state mismatch

The claim says a callback whose `state` differs from the issued token always
fails with the state-mismatch error, regardless of whether `code` is present.
The source checks `error`, then missing `code`, then the state, in that
order, so a mismatched-state request *without* a `code` fails with the
missing-code error instead. -/

/-- C1 counterexample: a callback request on the right path carrying no
`code` and a `state` different from the issued token.  Per the claim it
should fail with the state mismatch; `waitForCallback` instead takes the
missing-code branch first, producing the missing-code error. -/
theorem C1_counterexample :
    (⟨CALLBACK_PATH, none, some "evil", none⟩ : CallbackRequest).state
        ≠ some "expected" ∧
    handleCallbackRequest "expected" ⟨CALLBACK_PATH, none, some "evil", none⟩
        = .missingCode ∧
    handleCallbackRequest "expected" ⟨CALLBACK_PATH, none, some "evil", none⟩
        ≠ .stateMismatch := by
  refine ⟨by decide, by decide, by decide⟩

/-- C1 (amended): `waitForCallback` fails with the state-mismatch error
exactly when the request is on the callback path, carries no (truthy)
`error` parameter, carries a (truthy) `code`, and its `state` differs from
the token issued for the attempt; with `code` absent the missing-code error
takes precedence, and with `error` present the provider-error outcome does. -/
theorem C1_state_mismatch_characterization (expectedState : String)
    (r : CallbackRequest) :
    handleCallbackRequest expectedState r = .stateMismatch ↔
      (r.pathname = CALLBACK_PATH ∧ r.error.getD "" = "" ∧
       r.code.getD "" ≠ "" ∧ r.state ≠ some expectedState) := by
  unfold handleCallbackRequest
  split_ifs with h1 h2 h3 h4 <;> simp_all

/-! ## Claim C2 — no refresh token, nothing persisted -/

/-- C2: when the token-endpoint response has no `refresh_token`,
`exchangeCodeForToken` fails with the missing-refresh-token error and the
login flow performs none of `saveAccount`, `saveToken`,
`setActiveAccountId` — the credential store is returned unchanged and
`login` reports failure. -/
theorem C2_no_refresh_token_no_persist (st : TokenStore)
    (resp : TokenResponse) (userInfoResult : Except String UserInfo)
    (now : Int) (h : resp.refresh_token = none) :
    exchangeCodeForToken resp now = .error "No refresh token in response" ∧
    loginCompleteFromCallback st resp userInfoResult now = (st, false) := by
  have hex : exchangeCodeForToken resp now
      = .error "No refresh token in response" := by
    unfold exchangeCodeForToken
    simp [h]
  exact ⟨hex, by unfold loginCompleteFromCallback; simp [hex]⟩

/-- C2 witness: a concrete refresh-token-less response against a concrete
store. -/
theorem C2_witness :
    exchangeCodeForToken ⟨"at", none, 3600, "Bearer", "s"⟩ 0
        = .error "No refresh token in response" ∧
    loginCompleteFromCallback ⟨[], [], none⟩ ⟨"at", none, 3600, "Bearer", "s"⟩
        (.ok ⟨"u1", "u@x"⟩) 0 = (⟨[], [], none⟩, false) :=
  C2_no_refresh_token_no_persist ⟨[], [], none⟩ ⟨"at", none, 3600, "Bearer", "s"⟩
    (.ok ⟨"u1", "u@x"⟩) 0 rfl

/-! ## Claim C9 — missing secondary credential file -/

/-- C9: when the credential file is absent, or parses to data whose
`refreshToken` or `profileArn` is missing/empty, `loadCredentials` returns
`false` (the `try`/`catch` in the source makes every path return rather than
throw, which is why the embedding is a total function), and
`isAuthenticated()` on the resulting credentials is `false`. -/
theorem C9_missing_credentials (fs : KiroFileState)
    (h : fs = .absent ∨ ∃ d, fs = .parsed d ∧
      (falsyStr d.refreshToken || falsyStr d.profileArn) = true) :
    (loadCredentials fs).2 = false ∧
    kiroIsAuthenticated (loadCredentials fs).1 = false := by
  rcases h with h | ⟨d, hd, hfalsy⟩
  · subst h
    exact ⟨rfl, rfl⟩
  · subst hd
    unfold loadCredentials
    simp [hfalsy, kiroIsAuthenticated]

/-- C9 witness: the absent file and a file missing its refresh token. -/
theorem C9_witness :
    ((loadCredentials .absent).2 = false ∧
      kiroIsAuthenticated (loadCredentials .absent).1 = false) ∧
    ((loadCredentials (.parsed ⟨some "at", none, some "arn", none⟩)).2 = false ∧
      kiroIsAuthenticated
        (loadCredentials (.parsed ⟨some "at", none, some "arn", none⟩)).1
        = false) :=
  ⟨C9_missing_credentials .absent (Or.inl rfl),
   C9_missing_credentials (.parsed ⟨some "at", none, some "arn", none⟩)
     (Or.inr ⟨⟨some "at", none, some "arn", none⟩, rfl, by decide⟩)⟩

/-! ## Claim C10 — quota level thresholds -/

/-- C10: with thresholds `0 < criticalThreshold < warningThreshold`, the
derived level is Depleted for `p ≤ 0`, Critical on `0 < p <
criticalThreshold`, Warning on `criticalThreshold ≤ p < warningThreshold`,
Normal for `p ≥ warningThreshold`; and the spec's scenario `p = 25, w = 50,
c = 30` yields Critical. -/
theorem C10_quota_level (p w c : ℚ) (hc : 0 < c) (hcw : c < w) :
    (p ≤ 0 → getQuotaLevel p w c = .depleted) ∧
    (0 < p → p < c → getQuotaLevel p w c = .critical) ∧
    (c ≤ p → p < w → getQuotaLevel p w c = .warning) ∧
    (w ≤ p → getQuotaLevel p w c = .normal) ∧
    getQuotaLevel 25 50 30 = .critical := by
  refine ⟨?_, ?_, ?_, ?_, by decide⟩ <;>
    · intros
      unfold getQuotaLevel
      split_ifs <;> first | rfl | linarith

/-- C10 witness: thresholds `w = 50`, `c = 30` with one percentage in each
band. -/
theorem C10_witness :
    getQuotaLevel 0 50 30 = .depleted ∧
    getQuotaLevel 25 50 30 = .critical ∧
    getQuotaLevel 40 50 30 = .warning ∧
    getQuotaLevel 80 50 30 = .normal := by
  have h := C10_quota_level 25 50 30 (by norm_num) (by norm_num)
  have h0 := C10_quota_level 0 50 30 (by norm_num) (by norm_num)
  have h40 := C10_quota_level 40 50 30 (by norm_num) (by norm_num)
  have h80 := C10_quota_level 80 50 30 (by norm_num) (by norm_num)
  exact ⟨h0.1 (by norm_num), h.2.1 (by norm_num) (by norm_num),
    h40.2.2.1 (by norm_num) (by norm_num), h80.2.2.2.1 (by norm_num)⟩

/-! ## Claim C3 — re-auth errors stop polling and are not retried -/

/-- C3: a fetch failure classified as requiring re-authentication
(`needsReauth()` true) makes `handleFetchError` stop polling
(`isPolling = false`), reset the retry counter to 0, emit exactly the idle
status and the error on the error channel, and sleep for no retry at all —
whatever re-fetch outcomes would have been available. -/
theorem C3_reauth_stops_polling (accountId : String) (s : QSState)
    (e : FetchError) (future : List FetchOutcome)
    (h : e.needsReauthCheck = true) :
    (handleFetchError accountId s e future).state.isPolling = false ∧
    (handleFetchError accountId s e future).state.retryCount = 0 ∧
    (handleFetchError accountId s e future).events
      = [.statusIdle, .errorEvt accountId e] ∧
    (handleFetchError accountId s e future).delays = [] := by
  cases future <;>
    simp [handleFetchError, handleFetchErrorBase, stopPolling, h]

/-- C3 witness: an HTTP 401 `GoogleApiError` while polling, with a
would-be-successful re-fetch available that is never used. -/
theorem C3_witness :
    FetchError.needsReauthCheck (.apiError ⟨401⟩) = true ∧
    (handleFetchError "acct" ⟨true, true, 0, []⟩ (.apiError ⟨401⟩)
      [.ok ⟨[]⟩]).state.isPolling = false ∧
    (handleFetchError "acct" ⟨true, true, 0, []⟩ (.apiError ⟨401⟩)
      [.ok ⟨[]⟩]).state.retryCount = 0 ∧
    (handleFetchError "acct" ⟨true, true, 0, []⟩ (.apiError ⟨401⟩)
      [.ok ⟨[]⟩]).events
      = [.statusIdle, .errorEvt "acct" (.apiError ⟨401⟩)] ∧
    (handleFetchError "acct" ⟨true, true, 0, []⟩ (.apiError ⟨401⟩)
      [.ok ⟨[]⟩]).delays = [] := by
  have h := C3_reauth_stops_polling "acct" ⟨true, true, 0, []⟩
    (.apiError ⟨401⟩) [.ok ⟨[]⟩] (by decide)
  exact ⟨by decide, h.1, h.2.1, h.2.2.1, h.2.2.2⟩

/-! ## Claim C8 — 401 vs 403 classification

The claim says a 403 receives the same stop-polling treatment as a 401.
`GoogleApiError.needsReauth` is `statusCode === 401` only; a 403 is neither
retryable nor a re-auth error, so `handleFetchError` surfaces it without
retrying but leaves polling running. -/

/-- A live polling state with an empty cache. -/
def c8PollingState : QSState := ⟨true, true, 0, []⟩

/-- C8 counterexample: an HTTP 403 `GoogleApiError` during polling.  It is
not classified as needing re-authentication, and after `handleFetchError`
polling is still on — not the stop-polling treatment the claim promises. -/
theorem C8_counterexample :
    GoogleApiError.needsReauth ⟨403⟩ = false ∧
    (handleFetchError "acct" c8PollingState (.apiError ⟨403⟩) []).state.isPolling
      = true ∧
    (handleFetchError "acct" c8PollingState (.apiError ⟨403⟩) []).events
      = [.errorEvt "acct" (.apiError ⟨403⟩)] ∧
    (handleFetchError "acct" c8PollingState (.apiError ⟨403⟩) []).delays
      = [] := by
  refine ⟨by decide, by decide, by decide, by decide⟩

/-- C8 (amended): only an HTTP 401 is classified as requiring
re-authentication and stops polling (error surfaced, no retry); an HTTP 403
is a non-retryable error — surfaced at once with no retry and no state
change, with polling left running. -/
theorem C8_only_401_stops_polling (accountId : String) (s : QSState)
    (future : List FetchOutcome) :
    ((handleFetchError accountId s (.apiError ⟨401⟩) future).state.isPolling
        = false ∧
     (handleFetchError accountId s (.apiError ⟨401⟩) future).state.retryCount
        = 0 ∧
     (handleFetchError accountId s (.apiError ⟨401⟩) future).events
        = [.statusIdle, .errorEvt accountId (.apiError ⟨401⟩)] ∧
     (handleFetchError accountId s (.apiError ⟨401⟩) future).delays = []) ∧
    ((handleFetchError accountId s (.apiError ⟨403⟩) future).state = s ∧
     (handleFetchError accountId s (.apiError ⟨403⟩) future).events
        = [.errorEvt accountId (.apiError ⟨403⟩)] ∧
     (handleFetchError accountId s (.apiError ⟨403⟩) future).delays = []) := by
  constructor
  · cases future <;>
      simp [handleFetchError, handleFetchErrorBase, stopPolling,
        FetchError.needsReauthCheck, GoogleApiError.needsReauth]
  · cases future <;>
      simp [handleFetchError, handleFetchErrorBase, stopPolling,
        FetchError.needsReauthCheck, FetchError.nonRetryableApiCheck,
        GoogleApiError.needsReauth, GoogleApiError.isRetryable]

/-! ## Claim C4 — bounded retry with constant (not linear) delay

`QuotaService.handleFetchError` retries at most `MAX_RETRIES = 3` times but
every sleep is the constant `RETRY_DELAY_MS = 5000` ms; the linearly growing
`delay = RETRY_DELAY_MS * (attempt + 1)` the spec describes lives in
`GoogleCloudCodeClient.makeApiRequest`, whose base is 1000 ms, not 5000. -/

/-- The fetch failures that reach the retry branch of `handleFetchError`:
not a re-auth `GoogleApiError` and not a non-retryable `GoogleApiError`
(network errors and retryable HTTP statuses). -/
def retriesViaPoller (e : FetchError) : Bool :=
  !e.needsReauthCheck && !e.nonRetryableApiCheck

/-- Once the retry counter is exhausted, `handleFetchError` surfaces the
error and resets the counter without looking at any further outcome. -/
theorem handleFetchError_exhausted (accountId : String) (s : QSState)
    (e : FetchError) (future : List FetchOutcome)
    (h1 : e.needsReauthCheck = false) (h2 : e.nonRetryableApiCheck = false)
    (h3 : ¬ s.retryCount < QS_MAX_RETRIES) :
    handleFetchError accountId s e future
      = ⟨{ s with retryCount := 0 }, [.errorEvt accountId e], []⟩ := by
  cases future <;>
    simp [handleFetchError, handleFetchErrorBase, h1, h2, h3]

/-- C4 counterexample: three consecutive network failures starting from a
retry counter of 0.  The three sleeps are all `5000` ms; in particular the
sleep before the second retry is 5000 ms, not the `2 × 5000` the claim
requires. -/
theorem C4_counterexample :
    (handleFetchError "acct" c8PollingState (.plainError "network")
      [.fail (.plainError "network"), .fail (.plainError "network"),
       .fail (.plainError "network")]).delays = [5000, 5000, 5000] ∧
    (handleFetchError "acct" c8PollingState (.plainError "network")
      [.fail (.plainError "network"), .fail (.plainError "network"),
       .fail (.plainError "network")]).delays.get? 1 = some 5000 ∧
    (5000 : Nat) ≠ 2 * 5000 := by
  refine ⟨by decide, by decide, by decide⟩

/-- C4 (amended): on a sequence of failures that reach the retry branch,
the poller retries at most `MAX_RETRIES = 3` times — each retry preceded by
the *constant* 5000 ms delay — then surfaces the last error on the error
channel and resets the retry counter to 0, leaving `isPolling` and the cache
untouched; the linearly increasing delay (`attempt × 1000` ms) occurs only
inside the HTTP client's own retry loop, as its sleeps before attempts 2 and
3 show. -/
theorem C4_retry_policy :
    (∀ (accountId : String) (s : QSState) (e1 e2 e3 e4 : FetchError)
        (rest : List FetchOutcome),
      retriesViaPoller e1 = true → retriesViaPoller e2 = true →
      retriesViaPoller e3 = true → retriesViaPoller e4 = true →
      s.retryCount = 0 →
      (handleFetchError accountId s e1
          (.fail e2 :: .fail e3 :: .fail e4 :: rest)).delays
        = [QS_RETRY_DELAY_MS, QS_RETRY_DELAY_MS, QS_RETRY_DELAY_MS] ∧
      (handleFetchError accountId s e1
          (.fail e2 :: .fail e3 :: .fail e4 :: rest)).events
        = [.statusRetrying 1, .statusRetrying 2, .statusRetrying 3,
           .errorEvt accountId e4] ∧
      (handleFetchError accountId s e1
          (.fail e2 :: .fail e3 :: .fail e4 :: rest)).state
        = { s with retryCount := 0 }) ∧
    (∀ (e1 e2 e3 : FetchError),
      retriesViaPoller e1 = true → retriesViaPoller e2 = true →
      retriesViaPoller e3 = true →
      (makeApiRequest Unit [.error e1, .error e2, .error e3]).2
        = [CLIENT_RETRY_DELAY_MS * 1, CLIENT_RETRY_DELAY_MS * 2]) := by
  constructor
  · intro accountId s e1 e2 e3 e4 rest h1 h2 h3 h4 hrc
    simp only [retriesViaPoller, Bool.and_eq_true, Bool.not_eq_true'] at h1 h2 h3 h4
    refine ⟨?_, ?_, ?_⟩ <;>
      simp [handleFetchError, handleFetchErrorBase, h1.1, h1.2, h2.1, h2.2,
        h3.1, h3.2, h4.1, h4.2, hrc, QS_MAX_RETRIES,
        handleFetchError_exhausted]
  · intro e1 e2 e3 h1 h2 h3
    simp only [retriesViaPoller, Bool.and_eq_true, Bool.not_eq_true'] at h1 h2 h3
    simp [makeApiRequest, makeApiRequestLoop, h1.1, h1.2, h2.1, h2.2,
      h3.1, h3.2, CLIENT_MAX_RETRIES, CLIENT_RETRY_DELAY_MS]

/-- C4 witness: three network failures through the poller and through the
HTTP client. -/
theorem C4_witness :
    ((handleFetchError "acct" ⟨true, true, 0, []⟩ (.plainError "network")
        [.fail (.plainError "network"), .fail (.plainError "network"),
         .fail (.plainError "network")]).delays = [5000, 5000, 5000] ∧
     (handleFetchError "acct" ⟨true, true, 0, []⟩ (.plainError "network")
        [.fail (.plainError "network"), .fail (.plainError "network"),
         .fail (.plainError "network")]).events
        = [.statusRetrying 1, .statusRetrying 2, .statusRetrying 3,
           .errorEvt "acct" (.plainError "network")] ∧
     (handleFetchError "acct" ⟨true, true, 0, []⟩ (.plainError "network")
        [.fail (.plainError "network"), .fail (.plainError "network"),
         .fail (.plainError "network")]).state
        = { (⟨true, true, 0, []⟩ : QSState) with retryCount := 0 }) ∧
    (makeApiRequest Unit [.error (.plainError "network"),
        .error (.plainError "network"), .error (.plainError "network")]).2
      = [1000, 2000] := by
  have h := C4_retry_policy
  refine ⟨h.1 "acct" ⟨true, true, 0, []⟩ (.plainError "network")
    (.plainError "network") (.plainError "network") (.plainError "network")
    [] (by decide) (by decide) (by decide) (by decide) rfl, ?_⟩
  have h2 := h.2 (.plainError "network") (.plainError "network")
    (.plainError "network") (by decide) (by decide) (by decide)
  simpa [CLIENT_RETRY_DELAY_MS] using h2

/-! ## Claim C5 — active-account pointer after deletion

The claim says deleting the active account promotes the *next* remaining
account.  `deleteAccount` promotes `filtered[0]` — the *first* remaining
account in roster order — which differs from the successor of the deleted
account whenever the active account is not the roster head. -/

/-- The account that follows `deletedId` in roster order — the claim's
"next remaining account", stated from the spec's words for comparison with
what `deleteAccount` promotes. -/
def nextRemainingAfter (accounts : List AccountData) (deletedId : String) :
    Option String :=
  match accounts.dropWhile (fun a => a.id ≠ deletedId) with
  | [] => none
  | _ :: rest => (rest.head?).map (·.id)

/-- A three-account roster with the middle account active. -/
def c5Store : TokenStore :=
  ⟨[], [⟨"a", "a@x"⟩, ⟨"b", "b@x"⟩, ⟨"c", "c@x"⟩], some "b"⟩

/-- C5 counterexample: roster `[a, b, c]` with `b` active and ids unique.
Deleting `b` promotes `a` — the first remaining account — while the next
remaining account after `b` is `c`. -/
theorem C5_counterexample :
    (c5Store.accounts.map (·.id)).Nodup ∧
    (deleteAccount c5Store "b").activeAccountId = some "a" ∧
    nextRemainingAfter c5Store.accounts "b" = some "c" ∧
    (some "a" : Option String) ≠ some "c" := by
  refine ⟨by decide, by decide, by decide, by decide⟩

/-- C5 (amended): in a roster with unique ids, deleting the active account
promotes the *first* remaining account in roster order (not the deleted
account's successor) if any remains and clears the pointer otherwise, while
deleting a non-active account leaves the pointer unchanged; the deleted
account's token is gone and the roster is the original minus that account. -/
theorem C5_delete_account_active_pointer (st : TokenStore) (accountId : String)
    (_hnodup : (st.accounts.map (·.id)).Nodup) :
    (st.activeAccountId = some accountId →
      (deleteAccount st accountId).activeAccountId
        = ((st.accounts.filter (fun a => a.id ≠ accountId)).head?).map (·.id)) ∧
    (st.activeAccountId ≠ some accountId →
      (deleteAccount st accountId).activeAccountId = st.activeAccountId) ∧
    (deleteAccount st accountId).accounts
      = st.accounts.filter (fun a => a.id ≠ accountId) ∧
    getToken (deleteAccount st accountId) accountId = none := by
  refine ⟨?_, ?_, ?_, ?_⟩
  · intro hactive
    simp [deleteAccount, deleteToken, setActiveAccountId, hactive]
  · intro hactive
    simp only [deleteAccount, deleteToken, setActiveAccountId]
    simp [hactive]
  · by_cases hactive : st.activeAccountId = some accountId <;>
      simp [deleteAccount, deleteToken, setActiveAccountId, hactive]
  · by_cases hactive : st.activeAccountId = some accountId <;>
      simp [deleteAccount, deleteToken, setActiveAccountId, getToken,
        hactive, find_filter_ne]

/-- C5 witness: the three-account roster, deleting the active account and a
non-active account. -/
theorem C5_witness :
    (deleteAccount c5Store "b").activeAccountId = some "a" ∧
    (deleteAccount c5Store "c").activeAccountId = some "b" := by
  have hb := C5_delete_account_active_pointer c5Store "b" (by decide)
  have hc := C5_delete_account_active_pointer c5Store "c" (by decide)
  exact ⟨(hb.1 rfl).trans (by decide), hc.2.1 (by decide)⟩

/-! ## Claim C6 — expiry check and access-token update

`isTokenExpired` uses `now + buffer >= expiresAt`, and `updateAccessToken`
sets `expiresAt = now + ttl * 1000`.  At `ttl = 0` the fresh token is
*already* expired at buffer 0 (`now >= now`), so the claim's second half
only holds for positive `ttl`. -/

/-- A store holding one token for account `a`. -/
def c6Store : TokenStore :=
  ⟨[("a", ⟨"at", "rt", 1000, "Bearer", "s"⟩)], [⟨"a", "a@x"⟩], some "a"⟩

/-- C6 counterexample: calling `updateAccessToken` with `ttl = 0` at time
500 succeeds, yet `isExpired(id, 0)` evaluated at that same instant is
`true`, because the check uses `>=`: `500 + 0 >= 500 + 0 * 1000`. -/
theorem C6_counterexample :
    (updateAccessToken c6Store "a" "newToken" 0 500).map
      (fun st => isTokenExpired st "a" 0 500) = some true := by
  decide

/-- C6 (amended): for a stored token, `isExpired(id, buffer)` is true iff
`now + buffer >= expiresAt`; and immediately after
`updateAccessToken(id, token, ttl)` with a positive `ttl`, `isExpired(id, 0)`
is false (at `ttl = 0` it is already true, since the check uses `>=`). -/
theorem C6_expiry_semantics :
    (∀ (st : TokenStore) (accountId : String) (bufferMs now : Int)
        (token : TokenData), getToken st accountId = some token →
      (isTokenExpired st accountId bufferMs now = true ↔
        now + bufferMs ≥ token.expiresAt)) ∧
    (∀ (st st' : TokenStore) (accountId accessToken : String)
        (expiresIn now : Int), 0 < expiresIn →
      updateAccessToken st accountId accessToken expiresIn now = some st' →
      isTokenExpired st' accountId 0 now = false) := by
  constructor
  · intro st accountId bufferMs now token htok
    unfold isTokenExpired
    rw [htok]
    simp
  · intro st st' accountId accessToken expiresIn now hpos hupd
    unfold updateAccessToken at hupd
    cases htok : getToken st accountId with
    | none => rw [htok] at hupd; exact absurd hupd (by simp)
    | some token =>
        rw [htok] at hupd
        have hst' : st' = saveToken st accountId
            { token with accessToken := accessToken,
                         expiresAt := now + expiresIn * 1000 } := by
          exact (Option.some_inj.mp hupd).symm
        subst hst'
        unfold isTokenExpired
        rw [getToken_saveToken]
        simp only [decide_eq_false_iff_not, not_le]
        omega

/-- C6 witness: the single-token store, a buffer check on each side of the
expiry, and an update with a one-hour ttl. -/
theorem C6_witness :
    (isTokenExpired c6Store "a" 0 999 = true ↔ (999 : Int) + 0 ≥ 1000) ∧
    ((updateAccessToken c6Store "a" "newToken" 3600 500).map
        (fun st => isTokenExpired st "a" 0 500) = some false) := by
  constructor
  · exact C6_expiry_semantics.1 c6Store "a" 0 999
      ⟨"at", "rt", 1000, "Bearer", "s"⟩ (by decide)
  · have h := C6_expiry_semantics.2 c6Store
      (saveToken c6Store "a" ⟨"newToken", "rt", 500 + 3600 * 1000, "Bearer", "s"⟩)
      "a" "newToken" 3600 500 (by decide) (by decide)
    simp only [updateAccessToken, getToken, c6Store]
    simpa [updateAccessToken, getToken, c6Store] using h

/-! ## Claim C7 — model filtering

The claim's "not a member of the version-floored family with a version below
the minimum" admits gemini entries carrying *no* parsable version; the source
(`isModelVersionSupported`) drops those too, because the version regex must
match for a gemini name to pass. -/

/-- A versionless gemini entry with usage supplied. -/
def c7Entry : ModelEntry := ⟨"gemini-pro", some ⟨some 1, some "t"⟩⟩

/-- C7 counterexample: the entry `gemini-pro` matches the allow-list, has no
parsable version (so in particular no version below the minimum), and the
provider supplies `quotaInfo` — per the claim it appears in the mapped list,
but `fetchModelsQuota` drops it. -/
theorem C7_counterexample :
    allowedModelName c7Entry.modelName = true ∧
    findGeminiVersion (lowerStr c7Entry.modelName).data = none ∧
    c7Entry.quotaInfo.isSome = true ∧
    fetchModelsQuotaFilter [c7Entry] = [] := by
  refine ⟨by decide, by decide, by decide, by decide⟩

/-- C7 (amended): an entry of the usage response contributes a model of the
mapped quota list iff its name passes the allow-list (`gemini|claude|gpt`,
case-insensitive), passes the gemini version floor — which for gemini-family
names requires a parsable version that is at least 3.0, dropping versionless
gemini names — and the provider supplies `quotaInfo`; entries without
`quotaInfo` are omitted entirely, never mapped with zero values. -/
theorem C7_model_filter_membership (entries : List ModelEntry) (n : String) :
    (∃ m ∈ fetchModelsQuotaFilter entries, m.modelName = n) ↔
    (∃ e ∈ entries, e.modelName = n ∧ allowedModelName e.modelName = true ∧
      isModelVersionSupported e.modelName = true ∧
      e.quotaInfo.isSome = true) := by
  induction entries with
  | nil => simp [fetchModelsQuotaFilter]
  | cons e es ih =>
      by_cases ha : allowedModelName e.modelName = true
      · by_cases hs : isModelVersionSupported e.modelName = true
        · cases hq : e.quotaInfo with
          | some q =>
              simp [fetchModelsQuotaFilter, ha, hs, hq, parseModelQuota, ih]
          | none =>
              simp [fetchModelsQuotaFilter, ha, hs, hq, ih]
        · simp [fetchModelsQuotaFilter, ha, hs, ih]
      · simp [fetchModelsQuotaFilter, ha, ih]

end AGQW
